import Mathlib

/-
Verification development for the FitBit meals backend.

The embedding models, from the source:
  - gemini_nutrition.py  (GeminiNutritionServiceSync: response cleaning, JSON
    decoding as in Python json.loads, pydantic-style strict validation of the
    seven-nutrient object, and the lenient key-by-key fallback);
  - meal_repository.py   (SQLAlchemyMealRepository over a SQLite-backed store);
  - managers/meal_manager.py (MealManager: creation with nutrition analysis,
    update/delete delegation, statistics);
  - schemas/meal_schemas.py (the Meal response schema with its length and
    range bounds, applied by Meal.from_orm).

Python floats are modelled as rationals (Rat); Python round(x, n) is modelled
as exact decimal round-half-to-even on rationals.  The JSON decoder below
follows the json.loads grammar (strict numbers, no trailing data, duplicate
object keys resolved last-wins as in Python dicts); the NaN/Infinity literals
accepted by Python are not modelled, and no claim exercises them.
-/

/-- JSON values as decoded by Python json.loads: objects are key/value lists
in insertion order with duplicate keys already collapsed last-wins. -/
inductive Json where
  | null : Json
  | bool (b : Bool) : Json
  | num (q : Rat) : Json
  | str (s : String) : Json
  | arr (xs : List Json) : Json
  | obj (kvs : List (String × Json)) : Json

/-- Whether one char list is a leading segment of another. -/
def leadsChars : List Char → List Char → Bool
  | [], _ => true
  | _ :: _, [] => false
  | a :: as, b :: bs => a = b && leadsChars as bs

/-- Python str.startswith. -/
def pyStartsWith (s pat : String) : Bool :=
  leadsChars pat.toList s.toList

/-- Replace every non-overlapping occurrence of pat, left to right; fuel is
the remaining scan length. -/
def replaceAux (fuel : Nat) (pat rep : List Char) (s : List Char) : List Char :=
  match fuel with
  | 0 => s
  | fuel + 1 =>
    match s with
    | [] => []
    | c :: rest =>
      if leadsChars pat s then rep ++ replaceAux fuel pat rep (s.drop pat.length)
      else c :: replaceAux fuel pat rep rest

/-- Python str.replace with a non-empty pattern. -/
def pyReplace (s pat rep : String) : String :=
  if pat.toList.isEmpty then s
  else String.mk (replaceAux s.length pat.toList rep.toList s.toList)

/-- Python str.strip: drop leading and trailing whitespace. -/
def pyStrip (s : String) : String :=
  String.mk
    ((((s.toList.dropWhile Char.isWhitespace).reverse.dropWhile Char.isWhitespace).reverse))

/-- First value stored under a key in a decoded object. -/
def jGet (k : String) : List (String × Json) → Option Json
  | [] => none
  | (k2, v) :: rest => if k2 = k then some v else jGet k rest

/-- Insert or overwrite a key, keeping first-insertion position, as a Python
dict does while json.loads builds an object. -/
def upsert (k : String) (v : Json) : List (String × Json) → List (String × Json)
  | [] => [(k, v)]
  | (k2, v2) :: rest => if k2 = k then (k, v) :: rest else (k2, v2) :: upsert k v rest

/-- Skip the whitespace characters the Python json decoder skips. -/
def skipWs : List Char → List Char
  | [] => []
  | c :: cs => if c = ' ' ∨ c = '\t' ∨ c = '\n' ∨ c = '\r' then skipWs cs else c :: cs

/-- Decimal value of a digit list. -/
def digitsVal (ds : List Char) : Nat :=
  ds.foldl (fun a c => a * 10 + (c.toNat - 48)) 0

/-- Parse the signed digits of an exponent part. -/
def parseExpAux (cs : List Char) : Option (Int × List Char) :=
  let (sgn, cs1) : Int × List Char :=
    match cs with
    | '+' :: r => (1, r)
    | '-' :: r => (-1, r)
    | _ => (1, cs)
  let (ds, r) := cs1.span Char.isDigit
  if ds.isEmpty then none else some (sgn * (digitsVal ds : Int), r)

/-- Parse an optional exponent part. -/
def parseExp (cs : List Char) : Option (Int × List Char) :=
  match cs with
  | 'e' :: r => parseExpAux r
  | 'E' :: r => parseExpAux r
  | _ => some (0, cs)

/-- Parse an optional fraction part; a dot must be followed by digits. -/
def parseFrac (cs : List Char) : Option (List Char × List Char) :=
  match cs with
  | '.' :: r =>
    let (ds, r2) := r.span Char.isDigit
    if ds.isEmpty then none else some (ds, r2)
  | _ => some ([], cs)

/-- Assemble a rational from sign, integer digits, fraction digits and
exponent: the exact value sign * ids.fds * 10 ^ ex. -/
def assembleNumber (sign : Int) (ids fds : List Char) (ex : Int) : Rat :=
  let m : Int := sign * ((digitsVal ids : Int) * (10 : Int) ^ fds.length + (digitsVal fds : Int))
  if 0 ≤ ex then Rat.divInt (m * (10 : Int) ^ ex.toNat) ((10 : Int) ^ fds.length)
  else Rat.divInt m ((10 : Int) ^ fds.length * (10 : Int) ^ ex.natAbs)

/-- Parse a JSON number (strict grammar: no leading plus, no leading zeros). -/
def parseNumber (cs : List Char) : Option (Rat × List Char) :=
  let (sign, cs1) : Int × List Char :=
    match cs with
    | '-' :: r => (-1, r)
    | _ => (1, cs)
  match cs1 with
  | [] => none
  | c :: rest =>
    if c.isDigit then
      let (ids, r2) := if c = '0' then (['0'], rest) else (c :: rest).span Char.isDigit
      match parseFrac r2 with
      | none => none
      | some (fds, r3) =>
        match parseExp r3 with
        | none => none
        | some (ex, r4) => some (assembleNumber sign ids fds ex, r4)
    else none

/-- Hexadecimal digit value. -/
def hexVal (c : Char) : Option Nat :=
  if '0' ≤ c ∧ c ≤ '9' then some (c.toNat - 48)
  else if 'a' ≤ c ∧ c ≤ 'f' then some (c.toNat - 87)
  else if 'A' ≤ c ∧ c ≤ 'F' then some (c.toNat - 55)
  else none

/-- Parse the body of a JSON string after the opening quote, handling the
escape sequences json.loads accepts and rejecting raw control characters. -/
def parseStrAux : List Char → List Char → Option (String × List Char)
  | acc, '"' :: rest => some (String.mk acc.reverse, rest)
  | acc, '\\' :: '"' :: rest => parseStrAux ('"' :: acc) rest
  | acc, '\\' :: '\\' :: rest => parseStrAux ('\\' :: acc) rest
  | acc, '\\' :: '/' :: rest => parseStrAux ('/' :: acc) rest
  | acc, '\\' :: 'n' :: rest => parseStrAux ('\n' :: acc) rest
  | acc, '\\' :: 't' :: rest => parseStrAux ('\t' :: acc) rest
  | acc, '\\' :: 'r' :: rest => parseStrAux ('\r' :: acc) rest
  | acc, '\\' :: 'b' :: rest => parseStrAux (Char.ofNat 8 :: acc) rest
  | acc, '\\' :: 'f' :: rest => parseStrAux (Char.ofNat 12 :: acc) rest
  | acc, '\\' :: 'u' :: h1 :: h2 :: h3 :: h4 :: rest2 =>
    match hexVal h1, hexVal h2, hexVal h3, hexVal h4 with
    | some a, some b, some c, some d =>
      parseStrAux (Char.ofNat (((a * 16 + b) * 16 + c) * 16 + d) :: acc) rest2
    | _, _, _, _ => none
  | _, '\\' :: _ => none
  | acc, c :: rest => if c.toNat < 32 then none else parseStrAux (c :: acc) rest
  | _, [] => none

mutual

/-- Parse one JSON value; fuel bounds recursion depth. -/
def parseVal (fuel : Nat) (cs : List Char) : Except String (Json × List Char) :=
  match fuel with
  | 0 => .error ("Recursion limit")
  | fuel + 1 =>
    match cs with
    | 'n' :: 'u' :: 'l' :: 'l' :: rest => .ok (.null, rest)
    | 't' :: 'r' :: 'u' :: 'e' :: rest => .ok (.bool true, rest)
    | 'f' :: 'a' :: 'l' :: 's' :: 'e' :: rest => .ok (.bool false, rest)
    | '"' :: rest =>
      match parseStrAux [] rest with
      | some (s, r) => .ok (.str s, r)
      | none => .error ("Unterminated string")
    | '[' :: rest =>
      match skipWs rest with
      | ']' :: r => .ok (.arr [], r)
      | r => parseArrItems fuel r []
    | '{' :: rest =>
      match skipWs rest with
      | '}' :: r => .ok (.obj [], r)
      | r => parseObjItems fuel r []
    | _ =>
      match parseNumber cs with
      | some (q, r) => .ok (.num q, r)
      | none => .error ("Expecting value")

/-- Parse the remaining items of a JSON array. -/
def parseArrItems (fuel : Nat) (cs : List Char) (acc : List Json) :
    Except String (Json × List Char) :=
  match fuel with
  | 0 => .error ("Recursion limit")
  | fuel + 1 =>
    match parseVal fuel cs with
    | .error e => .error e
    | .ok (v, r) =>
      match skipWs r with
      | ',' :: r2 => parseArrItems fuel (skipWs r2) (v :: acc)
      | ']' :: r2 => .ok (.arr (v :: acc).reverse, r2)
      | _ => .error ("Expecting comma delimiter")

/-- Parse the remaining members of a JSON object. -/
def parseObjItems (fuel : Nat) (cs : List Char) (acc : List (String × Json)) :
    Except String (Json × List Char) :=
  match fuel with
  | 0 => .error ("Recursion limit")
  | fuel + 1 =>
    match cs with
    | '"' :: rest =>
      match parseStrAux [] rest with
      | none => .error ("Unterminated string")
      | some (k, r) =>
        match skipWs r with
        | ':' :: r2 =>
          match parseVal fuel (skipWs r2) with
          | .error e => .error e
          | .ok (v, r3) =>
            match skipWs r3 with
            | ',' :: r4 => parseObjItems fuel (skipWs r4) (upsert k v acc)
            | '}' :: r4 => .ok (.obj (upsert k v acc), r4)
            | _ => .error ("Expecting comma delimiter")
        | _ => .error ("Expecting colon delimiter")
    | _ => .error ("Expecting property name enclosed in double quotes")

end

/-- Model of Python json.loads: parse one value and require that nothing but
whitespace remains. -/
def parseJson (s : String) : Except String Json :=
  match parseVal (s.length * 2 + 8) (skipWs s.toList) with
  | .error e => .error e
  | .ok (v, rest) =>
    match skipWs rest with
    | [] => .ok v
    | _ => .error ("Extra data")

/-- Model of Python float(str) as used by pydantic lax string-to-float
coercion: surrounding whitespace allowed, optional sign, decimal digits with
optional fraction and exponent.  The inf/nan words and underscore separators
are not modelled; no claim exercises them. -/
def parsePyFloat (s : String) : Option Rat :=
  let cs := (pyStrip s).toList
  let (sign, cs1) : Int × List Char :=
    match cs with
    | '-' :: r => (-1, r)
    | '+' :: r => (1, r)
    | _ => (1, cs)
  let (ids, r2) := cs1.span Char.isDigit
  let (fds, r3) :=
    match r2 with
    | '.' :: r => r.span Char.isDigit
    | _ => (([] : List Char), r2)
  match parseExp r3 with
  | none => none
  | some (ex, r4) =>
    if r4.isEmpty ∧ ¬ (ids.isEmpty ∧ fds.isEmpty) then
      some (assembleNumber sign ids fds ex)
    else none

/-- The seven nutrient keys, in the order they appear in NutritionInfo and in
the fallback dict literal of _validate_nutrition_data. -/
def sevenKeys : List String :=
  ["calories", "protein", "fats", "carbohydrates", "fiber", "sugar", "sodium"]

/-- The NutritionInfo pydantic model: seven optional floats. -/
structure NutritionRecord where
  calories : Option Rat
  protein : Option Rat
  fats : Option Rat
  carbohydrates : Option Rat
  fiber : Option Rat
  sugar : Option Rat
  sodium : Option Rat
deriving DecidableEq

/-- Pydantic lax validation of one Optional float field: missing or null
gives explicit absence, numbers pass, numeric strings are coerced via
float(str), everything else (bool, array, object, non-numeric string) is a
validation error. -/
def coerceField (v : Option Json) : Option (Option Rat) :=
  match v with
  | none => some none
  | some .null => some none
  | some (.num q) => some (some q)
  | some (.str s) =>
    match parsePyFloat s with
    | some q => some (some q)
    | none => none
  | some _ => none

/-- Strict decoding NutritionInfo(**data): each of the seven keys must
validate; unknown keys are ignored (pydantic default extra behaviour). -/
def strict_validate (m : List (String × Json)) : Option NutritionRecord :=
  match coerceField (jGet "calories" m), coerceField (jGet "protein" m),
      coerceField (jGet "fats" m), coerceField (jGet "carbohydrates" m),
      coerceField (jGet "fiber" m), coerceField (jGet "sugar" m),
      coerceField (jGet "sodium" m) with
  | some cal, some pro, some fat, some car, some fib, some sug, some sod =>
    some ⟨cal, pro, fat, car, fib, sug, sod⟩
  | _, _, _, _, _, _, _ => none

/-- Rendering of an optional float back into a JSON-ish dict value. -/
def optRatToJson : Option Rat → Json
  | none => .null
  | some q => .num q

/-- NutritionInfo.model_dump(): exactly the seven keys in declaration
order. -/
def dumpRecord (r : NutritionRecord) : List (String × Json) :=
  [("calories", optRatToJson r.calories), ("protein", optRatToJson r.protein),
   ("fats", optRatToJson r.fats), ("carbohydrates", optRatToJson r.carbohydrates),
   ("fiber", optRatToJson r.fiber), ("sugar", optRatToJson r.sugar),
   ("sodium", optRatToJson r.sodium)]

/-- The lenient fallback of _validate_nutrition_data: a dict literal of the
seven keys, each taken raw from data.get(key) (missing keys become None,
present values pass through unchanged, unknown keys are dropped). -/
def lenientExtract (m : List (String × Json)) : List (String × Json) :=
  [("calories", (jGet "calories" m).getD .null),
   ("protein", (jGet "protein" m).getD .null),
   ("fats", (jGet "fats" m).getD .null),
   ("carbohydrates", (jGet "carbohydrates" m).getD .null),
   ("fiber", (jGet "fiber" m).getD .null),
   ("sugar", (jGet "sugar" m).getD .null),
   ("sodium", (jGet "sodium" m).getD .null)]

/-- GeminiNutritionServiceSync._validate_nutrition_data: try strict pydantic
validation, fall back to the lenient dict on validation failure.  When the
decoded JSON is not an object both the strict attempt and the fallback's
data.get raise, so the whole call fails (AttributeError in the source). -/
def validate_nutrition_data (v : Json) : Except String (List (String × Json)) :=
  match v with
  | .obj m =>
    match strict_validate m with
    | some r => .ok (dumpRecord r)
    | none => .ok (lenientExtract m)
  | _ => .error ("AttributeError: object has no attribute get")

/-- Outcome of the external generate_content call: a transport-level failure
or a response whose text is given. -/
inductive GenResult where
  | failure (msg : String)
  | success (text : String)
deriving DecidableEq

/-- The distinguishable failure shapes of analyze_meal_nutrition. -/
inductive GeminiError where
  | transport (msg : String)
  | emptyResponse
  | invalidJson (detail : String)
  | attrError (msg : String)
deriving DecidableEq

/-- The markdown code-fence cleanup applied to the stripped response text. -/
def strip_code_fences (t : String) : String :=
  if pyStartsWith t "```json" then pyStrip (pyReplace (pyReplace t "```json" "") "```" "")
  else if pyStartsWith t "```" then pyStrip (pyReplace t "```" "")
  else t

/-- GeminiNutritionServiceSync.analyze_meal_nutrition: reject empty response
text, strip fences, json.loads, then validate; each failure keeps its own
shape. -/
def analyze_meal_nutrition (r : GenResult) : Except GeminiError (List (String × Json)) :=
  match r with
  | .failure msg => .error (.transport msg)
  | .success text =>
    if text = "" then .error .emptyResponse
    else
      match parseJson (strip_code_fences (pyStrip text)) with
      | .error e => .error (.invalidJson e)
      | .ok v =>
        match validate_nutrition_data v with
        | .ok kvs => .ok kvs
        | .error m => .error (.attrError m)

/-- The message str(e) carried by each failure as the manager sees it; the
JSON decode failure carries the decoder's description, not the offending
response text (the source only logs that text). -/
def geminiErrorMessage : GeminiError → String
  | .transport m => m
  | .emptyResponse => "Empty response from Gemini API"
  | .invalidJson d => "Invalid JSON response from Gemini: " ++ d
  | .attrError m => m

/-- One row of the meals table.  A nutrient cell holds either a REAL or, via
SQLite dynamic typing, a TEXT value that did not look numeric. -/
structure MealRow where
  id : String
  name : String
  calories : Option (Rat ⊕ String)
  protein : Option (Rat ⊕ String)
  fats : Option (Rat ⊕ String)
  carbohydrates : Option (Rat ⊕ String)
  fiber : Option (Rat ⊕ String)
  sugar : Option (Rat ⊕ String)
  sodium : Option (Rat ⊕ String)
  createdAt : Nat
  updatedAt : Nat
deriving DecidableEq

/-- The Meal response schema (schemas/meal_schemas.py). -/
structure Meal where
  id : String
  name : String
  calories : Option Rat
  protein : Option Rat
  fats : Option Rat
  carbohydrates : Option Rat
  fiber : Option Rat
  sugar : Option Rat
  sodium : Option Rat
  createdAt : Nat
  updatedAt : Nat
deriving DecidableEq

/-- The persistent store: the meals table in insertion order. -/
structure Store where
  rows : List MealRow
deriving DecidableEq

/-- Binding one nutrient value into a REAL-affinity SQLite column: null and
numbers bind directly, numeric-looking strings are converted by affinity,
other strings stay TEXT, bools bind as 0 or 1, and containers cannot be
bound at all (sqlite3 rejects them, failing the insert). -/
def sqliteStoreVal (j : Json) : Option (Option (Rat ⊕ String)) :=
  match j with
  | .null => some none
  | .num q => some (some (.inl q))
  | .str s =>
    match parsePyFloat s with
    | some q => some (some (.inl q))
    | none => some (some (.inr s))
  | .bool b => some (some (.inl (if b then 1 else 0)))
  | _ => none

/-- Build the MealDB row for meal_db_data = name plus the validated
nutrition dict; fails when some value cannot be bound. -/
def build_row (rowId mealName : String) (kvs : List (String × Json)) (now : Nat) :
    Option MealRow :=
  match sqliteStoreVal ((jGet "calories" kvs).getD .null),
      sqliteStoreVal ((jGet "protein" kvs).getD .null),
      sqliteStoreVal ((jGet "fats" kvs).getD .null),
      sqliteStoreVal ((jGet "carbohydrates" kvs).getD .null),
      sqliteStoreVal ((jGet "fiber" kvs).getD .null),
      sqliteStoreVal ((jGet "sugar" kvs).getD .null),
      sqliteStoreVal ((jGet "sodium" kvs).getD .null) with
  | some cal, some pro, some fat, some car, some fib, some sug, some sod =>
    some ⟨rowId, mealName, cal, pro, fat, car, fib, sug, sod, now, now⟩
  | _, _, _, _, _, _, _ => none

/-- Reading one stored nutrient back through the Meal schema field
Optional float with its ge 0 and le bound. -/
def coerceStoredField (hi : Rat) (v : Option (Rat ⊕ String)) : Option (Option Rat) :=
  match v with
  | none => some none
  | some (.inl q) => if 0 ≤ q ∧ q ≤ hi then some (some q) else none
  | some (.inr s) =>
    match parsePyFloat s with
    | some q => if 0 ≤ q ∧ q ≤ hi then some (some q) else none
    | none => none

/-- Meal.from_orm as an option: the name must have length 1 to 200 and every
nutrient must satisfy its declared bound. -/
def from_orm_option (row : MealRow) : Option Meal :=
  if 1 ≤ row.name.length ∧ row.name.length ≤ 200 then
    match coerceStoredField 5000 row.calories, coerceStoredField 200 row.protein,
        coerceStoredField 200 row.fats, coerceStoredField 500 row.carbohydrates,
        coerceStoredField 100 row.fiber, coerceStoredField 200 row.sugar,
        coerceStoredField 5000 row.sodium with
    | some cal, some pro, some fat, some car, some fib, some sug, some sod =>
      some ⟨row.id, row.name, cal, pro, fat, car, fib, sug, sod, row.createdAt, row.updatedAt⟩
    | _, _, _, _, _, _, _ => none
  else none

/-- Meal.from_orm raising a pydantic ValidationError on failure. -/
def meal_from_orm (row : MealRow) : Except String Meal :=
  match from_orm_option row with
  | some m => .ok m
  | none => .error ("pydantic validation error")

/-- Whether an Except is a success. -/
def isOkE {ε α : Type} : Except ε α → Bool
  | .ok _ => true
  | .error _ => false

/-- The order_by created_at desc of get_all_meals. -/
def sortRowsDesc (rows : List MealRow) : List MealRow :=
  rows.insertionSort (fun a b => b.createdAt ≤ a.createdAt)

/-- The list comprehension mapping Meal.from_orm over rows: the first
pydantic failure aborts the whole read. -/
def mapFromOrm : List MealRow → Except String (List Meal)
  | [] => .ok []
  | r :: rest =>
    match meal_from_orm r with
    | .error e => .error e
    | .ok m =>
      match mapFromOrm rest with
      | .error e => .error e
      | .ok ms => .ok (m :: ms)

/-- SQLAlchemyMealRepository.get_all_meals: all rows newest first, each read
through Meal.from_orm. -/
def get_all_meals (s : Store) : Except String (List Meal) :=
  mapFromOrm (sortRowsDesc s.rows)

/-- SQLAlchemyMealRepository.get_meal_by_id: first row with the id, or an
explicit absence. -/
def get_meal_by_id (mealId : String) (s : Store) : Except String (Option Meal) :=
  match s.rows.find? (fun r => r.id == mealId) with
  | none => .ok none
  | some r => (meal_from_orm r).map some

/-- SQLAlchemyMealRepository.create_meal: the row is committed first (the
store grows regardless) and the stored row is then read back through
Meal.from_orm, whose failure surfaces only after the commit. -/
def create_meal (row : MealRow) (s : Store) : Except String Meal × Store :=
  (meal_from_orm row, ⟨s.rows ++ [row]⟩)

/-- A partial update payload: present fields overwrite, absent fields are
untouched. -/
structure UpdateData where
  name : Option String := none
  calories : Option Rat := none
  protein : Option Rat := none
  fats : Option Rat := none
  carbohydrates : Option Rat := none
  fiber : Option Rat := none
  sugar : Option Rat := none
  sodium : Option Rat := none
deriving DecidableEq

/-- The setattr loop of update_meal plus the updated_at refresh. -/
def applyUpdate (u : UpdateData) (now : Nat) (r : MealRow) : MealRow :=
  { r with
    name := u.name.getD r.name
    calories := match u.calories with | some q => some (.inl q) | none => r.calories
    protein := match u.protein with | some q => some (.inl q) | none => r.protein
    fats := match u.fats with | some q => some (.inl q) | none => r.fats
    carbohydrates := match u.carbohydrates with | some q => some (.inl q) | none => r.carbohydrates
    fiber := match u.fiber with | some q => some (.inl q) | none => r.fiber
    sugar := match u.sugar with | some q => some (.inl q) | none => r.sugar
    sodium := match u.sodium with | some q => some (.inl q) | none => r.sodium
    updatedAt := now }

/-- Modify the first element satisfying the predicate. -/
def modifyFirst (p : MealRow → Bool) (f : MealRow → MealRow) : List MealRow → List MealRow
  | [] => []
  | r :: rest => if p r then f r :: rest else r :: modifyFirst p f rest

/-- SQLAlchemyMealRepository.update_meal: absent id yields an explicit None;
otherwise the fields are overwritten and committed with no range check, and
only the read-back through Meal.from_orm can fail, after the commit. -/
def update_meal (mealId : String) (u : UpdateData) (now : Nat) (s : Store) :
    Except String (Option Meal) × Store :=
  match s.rows.find? (fun r => r.id == mealId) with
  | none => (.ok none, s)
  | some r =>
    ((meal_from_orm (applyUpdate u now r)).map some,
     ⟨modifyFirst (fun x => x.id == mealId) (applyUpdate u now) s.rows⟩)

/-- SQLAlchemyMealRepository.delete_meal: remove the first row with the id
and report whether one existed. -/
def delete_meal (mealId : String) (s : Store) : Bool × Store :=
  match s.rows.find? (fun r => r.id == mealId) with
  | some _ => (true, ⟨s.rows.eraseP (fun r => r.id == mealId)⟩)
  | none => (false, s)

/-- The failure shapes of create_meal_with_nutrition_analysis as the caller
can distinguish them: the ValueError for an unavailable service, the wrapped
estimation failure, the pydantic error raised when the stored row is read
back, and a persistence error. -/
inductive CreateError where
  | serviceUnavailable
  | estimationFailure (msg : String)
  | responseValidation (msg : String)
  | storeFailure (msg : String)
deriving DecidableEq

/-- MealManager.create_meal_with_nutrition_analysis: trim the name (with no
emptiness check of its own), require the nutrition service, analyze, merge
the trimmed name with the nutrition dict and create the row; the estimation
failure is wrapped by _analyze_meal_nutrition's message. -/
def create_meal_with_nutrition_analysis (available : Bool) (ext : GenResult)
    (rawName freshId : String) (now : Nat) (s : Store) :
    Except CreateError Meal × Store :=
  let mealName := pyStrip rawName
  if ¬ available then (.error .serviceUnavailable, s)
  else
    match analyze_meal_nutrition ext with
    | .error e =>
      (.error (.estimationFailure ("Failed to analyze meal nutrition: " ++ geminiErrorMessage e)), s)
    | .ok kvs =>
      match build_row freshId mealName kvs now with
      | none => (.error (.storeFailure "unsupported parameter type"), s)
      | some row =>
        match create_meal row s with
        | (.ok m, s2) => (.ok m, s2)
        | (.error msg, s2) => (.error (.responseValidation msg), s2)

/-- Round half to even on a rational, as Python round does on an exactly
representable value. -/
def round_half_even (x : Rat) : Int :=
  let f := ⌊x⌋
  let r := x - (f : Rat)
  if r < 1 / 2 then f
  else if 1 / 2 < r then f + 1
  else if f % 2 = 0 then f else f + 1

/-- Python round(x, d) on rationals. -/
def pyRound (d : Nat) (x : Rat) : Rat :=
  ((round_half_even (x * (10 : Rat) ^ d) : Int) : Rat) / (10 : Rat) ^ d

/-- Count of meals whose field is not None. -/
def countPresent (f : Meal → Option Rat) (meals : List Meal) : Nat :=
  (meals.filter (fun m => (f m).isSome)).length

/-- Sum of a field treating absence as 0. -/
def sumField (f : Meal → Option Rat) (meals : List Meal) : Rat :=
  (meals.map (fun m => (f m).getD 0)).sum

/-- MealManager._calculate_meal_statistics, producing the exact dict the
source builds: presence counts and completion percentages exist only for
calories, protein, fats and carbohydrates; totals, averages and insights
cover all listed fields. -/
def calculate_meal_statistics (meals : List Meal) : Json :=
  let total : Nat := meals.length
  let cCal := countPresent (fun m => m.calories) meals
  let cPro := countPresent (fun m => m.protein) meals
  let cFat := countPresent (fun m => m.fats) meals
  let cCar := countPresent (fun m => m.carbohydrates) meals
  let tCal := sumField (fun m => m.calories) meals
  let tPro := sumField (fun m => m.protein) meals
  let tFat := sumField (fun m => m.fats) meals
  let tCar := sumField (fun m => m.carbohydrates) meals
  let tFib := sumField (fun m => m.fiber) meals
  let tSug := sumField (fun m => m.sugar) meals
  let tSod := sumField (fun m => m.sodium) meals
  Json.obj
    [("total_meals", .num (total : Rat)),
     ("data_completeness", .obj
       [("meals_with_calories", .num (cCal : Rat)),
        ("meals_with_protein", .num (cPro : Rat)),
        ("meals_with_fats", .num (cFat : Rat)),
        ("meals_with_carbohydrates", .num (cCar : Rat)),
        ("completion_percentage", .obj
          [("calories", .num (pyRound 1 (((cCal : Rat) / (total : Rat)) * 100))),
           ("protein", .num (pyRound 1 (((cPro : Rat) / (total : Rat)) * 100))),
           ("fats", .num (pyRound 1 (((cFat : Rat) / (total : Rat)) * 100))),
           ("carbohydrates", .num (pyRound 1 (((cCar : Rat) / (total : Rat)) * 100)))])]),
     ("totals", .obj
       [("calories", .num (pyRound 2 tCal)), ("protein", .num (pyRound 2 tPro)),
        ("fats", .num (pyRound 2 tFat)), ("carbohydrates", .num (pyRound 2 tCar)),
        ("fiber", .num (pyRound 2 tFib)), ("sugar", .num (pyRound 2 tSug)),
        ("sodium", .num (pyRound 2 tSod))]),
     ("averages_per_meal", .obj
       [("calories", .num (if 0 < total then pyRound 2 (tCal / (total : Rat)) else 0)),
        ("protein", .num (if 0 < total then pyRound 2 (tPro / (total : Rat)) else 0)),
        ("fats", .num (if 0 < total then pyRound 2 (tFat / (total : Rat)) else 0)),
        ("carbohydrates", .num (if 0 < total then pyRound 2 (tCar / (total : Rat)) else 0)),
        ("fiber", .num (if 0 < total then pyRound 2 (tFib / (total : Rat)) else 0)),
        ("sugar", .num (if 0 < total then pyRound 2 (tSug / (total : Rat)) else 0)),
        ("sodium", .num (if 0 < total then pyRound 2 (tSod / (total : Rat)) else 0))]),
     ("nutrition_insights", .obj
       [("high_protein_meals", .num ((meals.filter (fun m => 15 < (m.protein.getD 0))).length : Rat)),
        ("low_calorie_meals", .num ((meals.filter (fun m => (m.calories.getD 0) < 200)).length : Rat)),
        ("high_fiber_meals", .num ((meals.filter (fun m => 5 < (m.fiber.getD 0))).length : Rat)),
        ("high_sodium_meals", .num ((meals.filter (fun m => 400 < (m.sodium.getD 0))).length : Rat))])]

/-- The empty-state report returned when the database holds no meals. -/
def emptyStatsReport : Json :=
  .obj [("total_meals", .num 0), ("message", .str "No meals in database")]

/-- MealManager.get_meal_statistics on the retrieved meal list: the explicit
empty-state report short-circuits all nutrient arithmetic. -/
def get_meal_statistics (meals : List Meal) : Json :=
  if meals.length = 0 then emptyStatsReport
  else calculate_meal_statistics meals

/-- The manager statistics operation end to end over the store. -/
def manager_get_statistics (s : Store) : Except String Json :=
  (get_all_meals s).map get_meal_statistics

/-- Look a key up in a JSON object. -/
def jLookup (k : String) (j : Json) : Option Json :=
  match j with
  | .obj kvs => jGet k kvs
  | _ => none

/-- Follow a path of keys through nested JSON objects. -/
def statField (j : Json) (path : List String) : Option Json :=
  path.foldl (fun acc k => acc.bind (jLookup k)) (some j)

instance : IsTotal MealRow (fun a b => b.createdAt ≤ a.createdAt) :=
  ⟨fun a b => Nat.le_total b.createdAt a.createdAt⟩

instance : IsTrans MealRow (fun a b => b.createdAt ≤ a.createdAt) :=
  ⟨fun _ _ _ h1 h2 => Nat.le_trans h2 h1⟩

/-- Fields preserved by a successful Meal.from_orm read-back. -/
theorem from_orm_fields (row : MealRow) (m : Meal) (h : from_orm_option row = some m) :
    m.name = row.name ∧ m.id = row.id ∧ m.createdAt = row.createdAt ∧
      m.updatedAt = row.updatedAt := by
  unfold from_orm_option at h
  split at h
  · split at h
    · cases h
      exact ⟨rfl, rfl, rfl, rfl⟩
    · exact absurd h (by simp)
  · exact absurd h (by simp)

/-- Fields of the row assembled for meal_db_data. -/
theorem build_row_fields (rid nm : String) (kvs : List (String × Json)) (now : Nat)
    (row : MealRow) (h : build_row rid nm kvs now = some row) :
    row.name = nm ∧ row.id = rid ∧ row.createdAt = now := by
  unfold build_row at h
  split at h
  · cases h
    exact ⟨rfl, rfl, rfl⟩
  · exact absurd h (by simp)

/-- A successful map of from_orm preserves length and the created_at map. -/
theorem mapFromOrm_fields : ∀ (rows : List MealRow) (ms : List Meal),
    mapFromOrm rows = .ok ms →
    ms.map Meal.createdAt = rows.map MealRow.createdAt ∧ ms.length = rows.length := by
  intro rows
  induction rows with
  | nil =>
    intro ms h
    cases h
    exact ⟨rfl, rfl⟩
  | cons r rest ih =>
    intro ms h
    unfold mapFromOrm at h
    cases hr : meal_from_orm r with
    | error e => rw [hr] at h; exact absurd h (by simp)
    | ok m =>
      rw [hr] at h
      cases hrest : mapFromOrm rest with
      | error e => rw [hrest] at h; exact absurd h (by simp)
      | ok ms2 =>
        rw [hrest] at h
        cases h
        obtain ⟨h1, h2⟩ := ih ms2 hrest
        have hcreated : m.createdAt = r.createdAt := by
          unfold meal_from_orm at hr
          cases hfo : from_orm_option r with
          | none => rw [hfo] at hr; exact absurd hr (by simp)
          | some m2 =>
            rw [hfo] at hr
            cases hr
            exact (from_orm_fields r _ hfo).2.2.1
        constructor
        · simp [hcreated, h1]
        · simp [h2]

/-- Keys of every successful validation result. -/
theorem validate_ok_keys (v : Json) (kvs : List (String × Json))
    (h : validate_nutrition_data v = .ok kvs) : kvs.map Prod.fst = sevenKeys := by
  cases v with
  | obj m =>
    cases hs : strict_validate m with
    | some r =>
      simp only [validate_nutrition_data, hs, Except.ok.injEq] at h
      subst h
      rfl
    | none =>
      simp only [validate_nutrition_data, hs, Except.ok.injEq] at h
      subst h
      rfl
  | null => exact absurd h (by simp [validate_nutrition_data])
  | bool b => exact absurd h (by simp [validate_nutrition_data])
  | num q => exact absurd h (by simp [validate_nutrition_data])
  | str s => exact absurd h (by simp [validate_nutrition_data])
  | arr xs => exact absurd h (by simp [validate_nutrition_data])

/-- Claim C10: every successful result of the adapter's estimate carries
exactly the seven nutrient keys, in order, on both the strict-validation
path (model_dump of NutritionInfo) and the lenient-fallback path (the dict
literal); unknown keys from the response never survive. -/
theorem c10_seven_keys (ext : GenResult) (kvs : List (String × Json))
    (h : analyze_meal_nutrition ext = .ok kvs) : kvs.map Prod.fst = sevenKeys := by
  cases ext with
  | failure msg => exact absurd h (by simp [analyze_meal_nutrition])
  | success text =>
    by_cases ht : text = ""
    · simp [analyze_meal_nutrition, ht] at h
    · cases hp : parseJson (strip_code_fences (pyStrip text)) with
      | error e => simp [analyze_meal_nutrition, ht, hp] at h
      | ok v =>
        cases hv : validate_nutrition_data v with
        | error e2 => simp [analyze_meal_nutrition, ht, hp, hv] at h
        | ok kvs2 =>
          simp [analyze_meal_nutrition, ht, hp, hv] at h
          subst h
          exact validate_ok_keys v _ hv

/-- Witness for C10 at a concrete successful response. -/
theorem c10_witness :
    ([("calories", Json.num 1), ("protein", Json.null), ("fats", Json.null),
      ("carbohydrates", Json.null), ("fiber", Json.null), ("sugar", Json.null),
      ("sodium", Json.null)].map Prod.fst) = sevenKeys :=
  c10_seven_keys (GenResult.success "\x7b\"calories\": 1\x7d")
    [("calories", Json.num 1), ("protein", Json.null), ("fats", Json.null),
     ("carbohydrates", Json.null), ("fiber", Json.null), ("sugar", Json.null),
     ("sodium", Json.null)] rfl

/-- Claim C9: every adapter failure (transport error, empty response,
unparseable content) is propagated by create_meal_with_nutrition_analysis as
the wrapped, distinguishable estimation failure; the store is left unchanged,
so no record with defaulted nutrients is ever persisted in place of the
failure. -/
theorem c9_failure_propagation (ext : GenResult) (e : GeminiError)
    (rawName freshId : String) (now : Nat) (s : Store)
    (h : analyze_meal_nutrition ext = .error e) :
    create_meal_with_nutrition_analysis true ext rawName freshId now s =
      (.error (.estimationFailure ("Failed to analyze meal nutrition: " ++ geminiErrorMessage e)), s) := by
  simp [create_meal_with_nutrition_analysis, h]

/-- Witness for C9 at a concrete transport failure. -/
theorem c9_witness :
    create_meal_with_nutrition_analysis true (GenResult.failure "quota exceeded") "Dal" "id7" 3 ⟨[]⟩ =
      (.error (.estimationFailure
        ("Failed to analyze meal nutrition: " ++ geminiErrorMessage (.transport "quota exceeded"))), ⟨[]⟩) :=
  c9_failure_propagation (GenResult.failure "quota exceeded") (.transport "quota exceeded")
    "Dal" "id7" 3 ⟨[]⟩ rfl

/-- Claim C7: statistics over a store holding zero meals is exactly the
explicit empty-state report, which carries no totals, averages or
completeness section at all, so no nutrient arithmetic or division happens
on the empty store. -/
theorem c7_empty_stats (s : Store) (h : s.rows = []) :
    manager_get_statistics s = .ok emptyStatsReport ∧
      jLookup "totals" emptyStatsReport = none ∧
      jLookup "averages_per_meal" emptyStatsReport = none ∧
      jLookup "data_completeness" emptyStatsReport = none := by
  obtain ⟨rows⟩ := s
  simp only at h
  subst h
  exact ⟨rfl, rfl, rfl, rfl⟩

/-- Witness for C7 at the concrete empty store. -/
theorem c7_witness : manager_get_statistics ⟨[]⟩ = .ok emptyStatsReport :=
  (c7_empty_stats ⟨[]⟩ rfl).1

/-- Claim C8: on a store of four meals with calories 240, 180, absent and
150, the report's totals.calories is 570 (absence summed as 0),
averages_per_meal.calories is 142.5 and
data_completeness.completion_percentage.calories is 75. -/
theorem c8_concrete_stats :
    statField (get_meal_statistics
        [⟨"a", "Chapati", some 240, none, none, none, none, none, none, 4, 4⟩,
         ⟨"b", "Dal", some 180, none, none, none, none, none, none, 3, 3⟩,
         ⟨"c", "Upma", none, none, none, none, none, none, none, 2, 2⟩,
         ⟨"d", "Oats", some 150, none, none, none, none, none, none, 1, 1⟩])
      ["totals", "calories"] = some (.num 570) ∧
    statField (get_meal_statistics
        [⟨"a", "Chapati", some 240, none, none, none, none, none, none, 4, 4⟩,
         ⟨"b", "Dal", some 180, none, none, none, none, none, none, 3, 3⟩,
         ⟨"c", "Upma", none, none, none, none, none, none, none, 2, 2⟩,
         ⟨"d", "Oats", some 150, none, none, none, none, none, none, 1, 1⟩])
      ["averages_per_meal", "calories"] = some (.num (142.5 : Rat)) ∧
    statField (get_meal_statistics
        [⟨"a", "Chapati", some 240, none, none, none, none, none, none, 4, 4⟩,
         ⟨"b", "Dal", some 180, none, none, none, none, none, none, 3, 3⟩,
         ⟨"c", "Upma", none, none, none, none, none, none, none, 2, 2⟩,
         ⟨"d", "Oats", some 150, none, none, none, none, none, none, 1, 1⟩])
      ["data_completeness", "completion_percentage", "calories"] = some (.num 75) := by
  refine ⟨?_, ?_, ?_⟩ <;>
  · simp +decide only [get_meal_statistics, calculate_meal_statistics, statField, jLookup,
      jGet, sumField, countPresent, List.foldl, Option.bind, List.length, List.map,
      List.filter, List.sum, reduceIte]
    norm_num [pyRound, round_half_even]

/-- Claim C3 counterexample: the statistics report of a non-empty store has
no presence count and no completion percentage for fiber, sugar or sodium;
the code computes them for only four of the seven nutrients. -/
theorem c3_counterexample :
    statField (get_meal_statistics
        [⟨"a", "meal", some 1, none, none, none, none, none, none, 0, 0⟩])
      ["data_completeness", "completion_percentage", "fiber"] = none ∧
    statField (get_meal_statistics
        [⟨"a", "meal", some 1, none, none, none, none, none, none, 0, 0⟩])
      ["data_completeness", "completion_percentage", "sugar"] = none ∧
    statField (get_meal_statistics
        [⟨"a", "meal", some 1, none, none, none, none, none, none, 0, 0⟩])
      ["data_completeness", "completion_percentage", "sodium"] = none ∧
    statField (get_meal_statistics
        [⟨"a", "meal", some 1, none, none, none, none, none, none, 0, 0⟩])
      ["data_completeness", "meals_with_fiber"] = none :=
  ⟨rfl, rfl, rfl, rfl⟩

/-- Claim C3 as amended: for every non-empty meal list the report carries,
for calories, protein, fats and carbohydrates only, the count of records
where the field is present and the completion percentage
present-count / total-count times 100 rounded to 1 decimal; fiber, sugar and
sodium get no presence count and no completion percentage. -/
theorem c3_completion_stats (meals : List Meal) (h : meals ≠ []) :
    statField (get_meal_statistics meals) ["data_completeness", "meals_with_calories"] =
      some (.num ((countPresent (fun m => m.calories) meals : Rat))) ∧
    statField (get_meal_statistics meals) ["data_completeness", "meals_with_protein"] =
      some (.num ((countPresent (fun m => m.protein) meals : Rat))) ∧
    statField (get_meal_statistics meals) ["data_completeness", "meals_with_fats"] =
      some (.num ((countPresent (fun m => m.fats) meals : Rat))) ∧
    statField (get_meal_statistics meals) ["data_completeness", "meals_with_carbohydrates"] =
      some (.num ((countPresent (fun m => m.carbohydrates) meals : Rat))) ∧
    statField (get_meal_statistics meals) ["data_completeness", "completion_percentage", "calories"] =
      some (.num (pyRound 1 (((countPresent (fun m => m.calories) meals : Rat) / (meals.length : Rat)) * 100))) ∧
    statField (get_meal_statistics meals) ["data_completeness", "completion_percentage", "protein"] =
      some (.num (pyRound 1 (((countPresent (fun m => m.protein) meals : Rat) / (meals.length : Rat)) * 100))) ∧
    statField (get_meal_statistics meals) ["data_completeness", "completion_percentage", "fats"] =
      some (.num (pyRound 1 (((countPresent (fun m => m.fats) meals : Rat) / (meals.length : Rat)) * 100))) ∧
    statField (get_meal_statistics meals) ["data_completeness", "completion_percentage", "carbohydrates"] =
      some (.num (pyRound 1 (((countPresent (fun m => m.carbohydrates) meals : Rat) / (meals.length : Rat)) * 100))) ∧
    statField (get_meal_statistics meals) ["data_completeness", "completion_percentage", "fiber"] = none ∧
    statField (get_meal_statistics meals) ["data_completeness", "completion_percentage", "sugar"] = none ∧
    statField (get_meal_statistics meals) ["data_completeness", "completion_percentage", "sodium"] = none := by
  have h0 : ¬ (meals.length = 0) := by simpa using h
  unfold get_meal_statistics
  rw [if_neg h0]
  exact ⟨rfl, rfl, rfl, rfl, rfl, rfl, rfl, rfl, rfl, rfl, rfl⟩

/-- Witness for C3 as amended at a concrete one-meal store. -/
theorem c3_witness :
    statField (get_meal_statistics
        [⟨"a", "meal", some 1, none, none, none, none, none, none, 0, 0⟩])
      ["data_completeness", "meals_with_calories"] =
      some (.num ((countPresent (fun m => m.calories)
        [⟨"a", "meal", some 1, none, none, none, none, none, none, 0, 0⟩] : Rat))) :=
  (c3_completion_stats
    [⟨"a", "meal", some 1, none, none, none, none, none, none, 0, 0⟩] (by simp)).1

/-- Claim C5: list_all returns all live rows (a permutation of the table)
ordered by created_at descending, the empty sequence on an empty store, and
every successful create grows the table by exactly one row, so N creates and
0 deletes yield exactly N records. -/
theorem c5_list_all (s : Store) (ms : List Meal) (h : get_all_meals s = .ok ms) :
    ms.length = s.rows.length ∧
    List.Sorted (fun a b => b ≤ a) (ms.map Meal.createdAt) ∧
    (sortRowsDesc s.rows).Perm s.rows ∧
    (s.rows = [] → ms = []) ∧
    (∀ (row : MealRow) (s0 : Store), ((create_meal row s0).2).rows.length = s0.rows.length + 1) := by
  unfold get_all_meals at h
  obtain ⟨h1, h2⟩ := mapFromOrm_fields _ _ h
  refine ⟨?_, ?_, ?_, ?_, ?_⟩
  · rw [h2, sortRowsDesc]
    exact (List.perm_insertionSort _ _).length_eq
  · rw [h1]
    have hs := List.sorted_insertionSort (fun a b : MealRow => b.createdAt ≤ a.createdAt) s.rows
    exact List.Pairwise.map _ (fun a b hab => hab) hs
  · exact List.perm_insertionSort _ _
  · intro he
    have hlen : ms.length = 0 := by rw [h2, he]; rfl
    exact List.eq_nil_of_length_eq_zero hlen
  · intro row s0
    simp [create_meal]

/-- Witness for C5 at a concrete two-row store. -/
theorem c5_witness :
    ([⟨"b", "Dal", none, none, none, none, none, none, none, 2, 2⟩,
      ⟨"a", "Chapati", none, none, none, none, none, none, none, 1, 1⟩] : List Meal).length =
      (Store.mk [⟨"a", "Chapati", none, none, none, none, none, none, none, 1, 1⟩,
        ⟨"b", "Dal", none, none, none, none, none, none, none, 2, 2⟩]).rows.length ∧
    List.Sorted (fun a b => b ≤ a)
      (([⟨"b", "Dal", none, none, none, none, none, none, none, 2, 2⟩,
         ⟨"a", "Chapati", none, none, none, none, none, none, none, 1, 1⟩] : List Meal).map Meal.createdAt) := by
  have h := c5_list_all
    ⟨[⟨"a", "Chapati", none, none, none, none, none, none, none, 1, 1⟩,
      ⟨"b", "Dal", none, none, none, none, none, none, none, 2, 2⟩]⟩
    [⟨"b", "Dal", none, none, none, none, none, none, none, 2, 2⟩,
     ⟨"a", "Chapati", none, none, none, none, none, none, none, 1, 1⟩] rfl
  exact ⟨h.1, h.2.1⟩

/-- After erasing the first row with the id from a table whose ids are
unique, no row with that id can be found. -/
theorem find_eraseP_none (mealId : String) :
    ∀ (rows : List MealRow), (rows.map MealRow.id).Nodup →
      (rows.eraseP (fun r => r.id == mealId)).find? (fun r => r.id == mealId) = none := by
  intro rows
  induction rows with
  | nil => intro _; rfl
  | cons r rest ih =>
    intro hnd
    rw [List.map_cons, List.nodup_cons] at hnd
    obtain ⟨hnotin, hnd2⟩ := hnd
    rw [List.eraseP_cons]
    cases hr : (r.id == mealId) with
    | true =>
      simp only [cond_true]
      rw [List.find?_eq_none]
      intro x hx hpx
      have hxid : x.id = mealId := by simpa using hpx
      have hrid : r.id = mealId := by simpa using hr
      exact hnotin (List.mem_map.mpr ⟨x, hx, by rw [hxid, hrid]⟩)
    | false =>
      simp only [cond_false]
      rw [List.find?_cons_of_neg _ (by simp [hr]), ih hnd2]

/-- Claim C6: delete reports true exactly when a row with the id existed,
and a get performed on the store after the delete yields explicit absence
(the ids of a table are unique, id being the primary key). -/
theorem c6_delete_get (s : Store) (mealId : String)
    (h : (s.rows.map MealRow.id).Nodup) :
    ((delete_meal mealId s).1 = true ↔ ∃ r ∈ s.rows, r.id = mealId) ∧
      get_meal_by_id mealId (delete_meal mealId s).2 = .ok none := by
  cases hf : s.rows.find? (fun r => r.id == mealId) with
  | none =>
    rw [List.find?_eq_none] at hf
    constructor
    · simp only [delete_meal]
      rw [List.find?_eq_none.mpr hf]
      constructor
      · intro ht; exact absurd ht (by simp)
      · rintro ⟨r, hrm, hrid⟩
        exact absurd (by simp [hrid] : (fun x => x.id == mealId) r = true) (hf r hrm)
    · simp only [delete_meal]
      rw [List.find?_eq_none.mpr hf]
      simp only [get_meal_by_id]
      rw [List.find?_eq_none.mpr hf]
  | some r =>
    constructor
    · simp only [delete_meal, hf]
      constructor
      · intro _
        exact ⟨r, List.mem_of_find?_eq_some hf, by simpa using List.find?_some hf⟩
      · intro _; trivial
    · simp only [delete_meal, hf, get_meal_by_id]
      rw [find_eraseP_none mealId s.rows h]

/-- Witness for C6 at a concrete one-row store. -/
theorem c6_witness :
    get_meal_by_id "m1"
      (delete_meal "m1" ⟨[⟨"m1", "Dal", none, none, none, none, none, none, none, 0, 0⟩]⟩).2 =
      .ok none :=
  (c6_delete_get ⟨[⟨"m1", "Dal", none, none, none, none, none, none, none, 0, 0⟩]⟩ "m1"
    (by simp)).2

/-- Claim C4 is a code bug: an update supplying calories 999999 on an
existing row is not rejected by any range validation; the value is written
to the store (the row changes) and only the read-back of the already
committed row through the response schema fails.  The MealUpdate schema that
declares the 0 to 5000 bound is never applied on this path. -/
theorem c4_update_bypasses_validation :
    ((update_meal "m1" { calories := some 999999 } 5
        ⟨[⟨"m1", "Dal", some (.inl 180), none, none, none, none, none, none, 0, 0⟩]⟩).2).rows.map
        MealRow.calories = [some (.inl 999999)] ∧
    isOkE (update_meal "m1" { calories := some 999999 } 5
        ⟨[⟨"m1", "Dal", some (.inl 180), none, none, none, none, none, none, 0, 0⟩]⟩).1 = false ∧
    ((update_meal "m1" { calories := some 999999 } 5
        ⟨[⟨"m1", "Dal", some (.inl 180), none, none, none, none, none, none, 0, 0⟩]⟩).2).rows.map
        MealRow.updatedAt = [5] :=
  ⟨rfl, rfl, rfl⟩

/-- Claim C2 counterexample.  First: on malformed but partially-recoverable
text (an unknown extra key and an unparseable calories value) the fallback
returns the raw string value for calories instead of defaulting the
unparseable key to absent, as the claim states.  Second: on entirely
non-JSON text the failure carries only the decoder description (the string
"Invalid JSON response from Gemini: Expecting value"), which does not
contain the offending text "hello"; that text is only logged. -/
theorem c2_counterexample :
    analyze_meal_nutrition
        (GenResult.success "\x7b\"calories\": \"abc\", \"protein\": 5, \"extra\": 1\x7d") =
      .ok [("calories", Json.str "abc"), ("protein", Json.num 5), ("fats", Json.null),
        ("carbohydrates", Json.null), ("fiber", Json.null), ("sugar", Json.null),
        ("sodium", Json.null)] ∧
    Json.str "abc" ≠ Json.null ∧
    analyze_meal_nutrition (GenResult.success "hello") =
      .error (.invalidJson "Expecting value") ∧
    geminiErrorMessage (.invalidJson "Expecting value") =
      "Invalid JSON response from Gemini: Expecting value" :=
  ⟨rfl, fun hx => Json.noConfusion hx, rfl, rfl⟩

/-- Claim C2 as amended: when strict decoding of a decoded JSON object
fails, estimate falls back to the lenient extraction and succeeds with
exactly the seven keys, unknown keys ignored, missing keys defaulted to
absent and present values passed through unchanged, raw and unparsed; when
the cleaned response text is not JSON at all, estimate fails with the
parse-error variant carrying the decoder description (the offending text is
logged, not carried). -/
theorem c2_lenient_and_parse_failure (t : String) (m : List (String × Json)) (e : String) :
    (t ≠ "" → parseJson (strip_code_fences (pyStrip t)) = .error e →
      analyze_meal_nutrition (.success t) = .error (.invalidJson e)) ∧
    (t ≠ "" → parseJson (strip_code_fences (pyStrip t)) = .ok (.obj m) →
      strict_validate m = none →
      analyze_meal_nutrition (.success t) = .ok (lenientExtract m) ∧
      (lenientExtract m).map Prod.fst = sevenKeys ∧
      jGet "calories" (lenientExtract m) = some ((jGet "calories" m).getD .null) ∧
      jGet "protein" (lenientExtract m) = some ((jGet "protein" m).getD .null) ∧
      jGet "fats" (lenientExtract m) = some ((jGet "fats" m).getD .null) ∧
      jGet "carbohydrates" (lenientExtract m) = some ((jGet "carbohydrates" m).getD .null) ∧
      jGet "fiber" (lenientExtract m) = some ((jGet "fiber" m).getD .null) ∧
      jGet "sugar" (lenientExtract m) = some ((jGet "sugar" m).getD .null) ∧
      jGet "sodium" (lenientExtract m) = some ((jGet "sodium" m).getD .null)) := by
  constructor
  · intro ht hp
    simp [analyze_meal_nutrition, ht, hp]
  · intro ht hp hs
    refine ⟨?_, rfl, rfl, rfl, rfl, rfl, rfl, rfl, rfl⟩
    simp [analyze_meal_nutrition, ht, hp, validate_nutrition_data, hs]

/-- Witness for C2 as amended at both concrete inputs. -/
theorem c2_witness :
    analyze_meal_nutrition (GenResult.success "hello") =
      .error (.invalidJson "Expecting value") ∧
    analyze_meal_nutrition (GenResult.success "\x7b\"calories\": \"abc\"\x7d") =
      .ok (lenientExtract [("calories", Json.str "abc")]) :=
  ⟨(c2_lenient_and_parse_failure "hello" [] "Expecting value").1 (by decide) rfl,
   ((c2_lenient_and_parse_failure "\x7b\"calories\": \"abc\"\x7d"
      [("calories", Json.str "abc")] "").2 (by decide) rfl rfl).1⟩

/-- Claim C1 counterexample: with the estimator available and succeeding, a
whitespace-only name (a valid MealCreate payload, min_length 1 on the raw
string) is not rejected by any validation after trimming; a row whose name
is the empty string is persisted, and the call then fails only on the
read-back of the committed row. -/
theorem c1_counterexample :
    ((create_meal_with_nutrition_analysis true
        (GenResult.success "\x7b\"calories\": 240, \"protein\": 8, \"fats\": 4, \"carbohydrates\": 48, \"fiber\": 4, \"sugar\": 2, \"sodium\": 320\x7d")
        " " "id1" 0 ⟨[]⟩).2).rows.map MealRow.name = [""] ∧
    isOkE (create_meal_with_nutrition_analysis true
        (GenResult.success "\x7b\"calories\": 240, \"protein\": 8, \"fats\": 4, \"carbohydrates\": 48, \"fiber\": 4, \"sugar\": 2, \"sodium\": 320\x7d")
        " " "id1" 0 ⟨[]⟩).1 = false :=
  ⟨rfl, rfl⟩

/-- Claim C1 as amended: create trims the name but performs no emptiness
check of its own.  On success the returned record's name equals the trimmed
input; unavailability and estimation failures are reported before any write;
but when the trimmed name is empty and the estimate succeeds and is
storable, the row is persisted with the empty name and the call fails
afterwards with the response-schema validation error. -/
theorem c1_create_behavior (available : Bool) (ext : GenResult) (rawName freshId : String)
    (now : Nat) (s : Store) :
    (∀ m s2, create_meal_with_nutrition_analysis available ext rawName freshId now s = (.ok m, s2) →
      m.name = pyStrip rawName) ∧
    (available = false →
      create_meal_with_nutrition_analysis available ext rawName freshId now s =
        (.error .serviceUnavailable, s)) ∧
    (∀ e, available = true → analyze_meal_nutrition ext = .error e →
      create_meal_with_nutrition_analysis available ext rawName freshId now s =
        (.error (.estimationFailure ("Failed to analyze meal nutrition: " ++ geminiErrorMessage e)), s)) ∧
    (∀ kvs row, pyStrip rawName = "" → available = true →
      analyze_meal_nutrition ext = .ok kvs →
      build_row freshId (pyStrip rawName) kvs now = some row →
      create_meal_with_nutrition_analysis available ext rawName freshId now s =
        (.error (.responseValidation "pydantic validation error"), ⟨s.rows ++ [row]⟩)) := by
  refine ⟨?_, ?_, ?_, ?_⟩
  · intro m s2 hok
    cases available with
    | false => simp [create_meal_with_nutrition_analysis] at hok
    | true =>
      cases hx : analyze_meal_nutrition ext with
      | error e => simp [create_meal_with_nutrition_analysis, hx] at hok
      | ok kvs =>
        cases hb : build_row freshId (pyStrip rawName) kvs now with
        | none => simp [create_meal_with_nutrition_analysis, hx, hb] at hok
        | some row =>
          cases hm : from_orm_option row with
          | none =>
            have hfo : meal_from_orm row = .error "pydantic validation error" := by
              simp [meal_from_orm, hm]
            simp [create_meal_with_nutrition_analysis, hx, hb, create_meal, hfo] at hok
          | some m0 =>
            have hfo : meal_from_orm row = .ok m0 := by simp [meal_from_orm, hm]
            simp [create_meal_with_nutrition_analysis, hx, hb, create_meal, hfo] at hok
            obtain ⟨hm0, -⟩ := hok
            subst hm0
            rw [(from_orm_fields row m0 hm).1, (build_row_fields _ _ _ _ _ hb).1]
  · intro ha
    subst ha
    simp [create_meal_with_nutrition_analysis]
  · intro e ha hx
    subst ha
    simp [create_meal_with_nutrition_analysis, hx]
  · intro kvs row hname ha hx hb
    subst ha
    have hrown : row.name = "" := by rw [(build_row_fields _ _ _ _ _ hb).1, hname]
    have hfo : from_orm_option row = none := by
      unfold from_orm_option
      rw [if_neg]
      rw [hrown]
      simp
    have hm : meal_from_orm row = .error "pydantic validation error" := by
      simp [meal_from_orm, hfo]
    simp [create_meal_with_nutrition_analysis, hx, hb, create_meal, hm]

/-- Witness for C1 as amended: a successful creation whose stored name is
the trimmed input, the unavailability outcome, the estimation-failure
outcome, and the empty-trimmed-name outcome that persists before failing,
all at concrete inputs. -/
theorem c1_witness :
    (Meal.mk "id1" "Dal" (some 240) none none none none none none 0 0).name =
      pyStrip " Dal " ∧
    create_meal_with_nutrition_analysis false (GenResult.success "x") "Dal" "id2" 0 ⟨[]⟩ =
      (.error .serviceUnavailable, ⟨[]⟩) ∧
    create_meal_with_nutrition_analysis true (GenResult.failure "boom") "Dal" "id3" 0 ⟨[]⟩ =
      (.error (.estimationFailure
        ("Failed to analyze meal nutrition: " ++ geminiErrorMessage (.transport "boom"))), ⟨[]⟩) ∧
    create_meal_with_nutrition_analysis true (GenResult.success "\x7b\"calories\": 240\x7d")
        " " "id4" 0 ⟨[]⟩ =
      (.error (.responseValidation "pydantic validation error"),
       ⟨[] ++ [⟨"id4", "", some (.inl 240), none, none, none, none, none, none, 0, 0⟩]⟩) :=
  ⟨(c1_create_behavior true (GenResult.success "\x7b\"calories\": 240\x7d") " Dal " "id1" 0
      ⟨[]⟩).1
      (Meal.mk "id1" "Dal" (some 240) none none none none none none 0 0)
      ⟨[⟨"id1", "Dal", some (.inl 240), none, none, none, none, none, none, 0, 0⟩]⟩ rfl,
   (c1_create_behavior false (GenResult.success "x") "Dal" "id2" 0 ⟨[]⟩).2.1 rfl,
   (c1_create_behavior true (GenResult.failure "boom") "Dal" "id3" 0 ⟨[]⟩).2.2.1
      (.transport "boom") rfl rfl,
   (c1_create_behavior true (GenResult.success "\x7b\"calories\": 240\x7d") " " "id4" 0 ⟨[]⟩).2.2.2
      [("calories", Json.num 240), ("protein", Json.null), ("fats", Json.null),
       ("carbohydrates", Json.null), ("fiber", Json.null), ("sugar", Json.null),
       ("sodium", Json.null)]
      ⟨"id4", "", some (.inl 240), none, none, none, none, none, none, 0, 0⟩
      rfl rfl rfl rfl⟩
